import Mathlib

/-!
Verification of the availability engine and booking operation of the
calendar-booking-agent backend (`calendar_service.py`, `agent.py`).

Timestamps are modelled as integer minutes (minutes since midnight for the
single-day availability computation; an arbitrary linear time axis for the
booking path), matching the linear arithmetic of Python `datetime` +
`timedelta(minutes=...)` used by the source.
-/

namespace CalendarAgent

/-- A time interval, start and end in integer minutes.  Mirrors the pairs
`(current_time, slot_end)` and `(event_start, event_end)` of
`calendar_service.py`.  (`endT` stands for the `end` field, which is a
reserved word in Lean.) -/
structure Interval where
  start : Int
  endT : Int
deriving DecidableEq, Repr

/-- The overlap test of `calendar_service.py` line 70:
`current_time < event_end and slot_end > event_start`, with
`a = (current_time, slot_end)` and `b = (event_start, event_end)`. -/
def overlaps (a b : Interval) : Bool :=
  decide (a.start < b.endT) && decide (b.start < a.endT)

/-- The candidate-slot `while` loop of `calendar_service.py` lines 55-81
(ignoring the availability filter): starting from `current`, emit
`[current, current + duration)` while `current + duration <= close`,
stepping by the hard-coded 30 minutes. -/
def slotLoop (current close duration : Int) : List Interval :=
  if h : current + duration ≤ close then
    { start := current, endT := current + duration } :: slotLoop (current + 30) close duration
  else
    []
termination_by (close - duration + 1 - current).toNat
decreasing_by
  simp_wf
  omega

/-- The per-slot availability check of lines 61-72: the slot is available
iff it overlaps no fetched event (the `for`/`break` loop is `List.all`). -/
def isFree (events : List Interval) (s : Interval) : Bool :=
  events.all (fun e => !(overlaps s e))

/-- The availability engine (lines 54-83, before display formatting):
candidate slots filtered by the no-overlap check, in generation order. -/
def available_intervals (openM closeM duration : Int) (events : List Interval) :
    List Interval :=
  (slotLoop openM closeM duration).filter (isFree events)

/-! ## Display formatting and input parsing

`strftime` / `strptime` as used by the source, over the minute model. -/

/-- Zero-padded two-digit rendering, as `strftime` produces. -/
def twoDigits (n : Nat) : String :=
  if n < 10 then "0" ++ toString n else toString n

/-- `strftime("%H:%M")` on a time-of-day given in minutes. -/
def fmtHM (m : Int) : String :=
  twoDigits ((m.toNat / 60) % 24) ++ ":" ++ twoDigits (m.toNat % 60)

def isLeapYear (y : Nat) : Bool :=
  (y % 4 == 0 && y % 100 != 0) || (y % 400 == 0)

def daysInMonth (y m : Nat) : Nat :=
  if m = 2 then (if isLeapYear y then 29 else 28)
  else if m = 4 ∨ m = 6 ∨ m = 9 ∨ m = 11 then 30
  else 31

def digitVal (c : Char) : Option Nat :=
  if c.isDigit then some (c.toNat - 48) else none

/-- `datetime.strptime(s, "%Y-%m-%d")` (zero-padded form): `none` models the
`ValueError` the Python call raises on malformed input. -/
def parseDate (s : String) : Option (Nat × Nat × Nat) :=
  match s.toList with
  | [y1, y2, y3, y4, s1, m1, m2, s2, d1, d2] =>
    if s1 = '-' ∧ s2 = '-' then
      match digitVal y1, digitVal y2, digitVal y3, digitVal y4,
            digitVal m1, digitVal m2, digitVal d1, digitVal d2 with
      | some a, some b, some c, some e, some f, some g, some h, some i =>
        let y := ((a * 10 + b) * 10 + c) * 10 + e
        let mo := f * 10 + g
        let da := h * 10 + i
        if 1 ≤ mo ∧ mo ≤ 12 ∧ 1 ≤ da ∧ da ≤ daysInMonth y mo then
          some (y, mo, da)
        else none
      | _, _, _, _, _, _, _, _ => none
    else none
  | _ => none

/-- `strptime(s, "%H:%M")` (zero-padded form), returning minutes since
midnight; `none` models the raised `ValueError`. -/
def parseTime (s : String) : Option Nat :=
  match s.toList with
  | [h1, h2, c, m1, m2] =>
    if c = ':' then
      match digitVal h1, digitVal h2, digitVal m1, digitVal m2 with
      | some a, some b, some d, some e =>
        let hh := a * 10 + b
        let mm := d * 10 + e
        if hh ≤ 23 ∧ mm ≤ 59 then some (hh * 60 + mm) else none
      | _, _, _, _ => none
    else none
  | _ => none

def natFromDigits (cs : List Char) : Int :=
  cs.foldl (fun acc c => acc * 10 + (Int.ofNat (c.toNat - 48))) 0

/-- Python `int(s)`: `Except.error` models the raised `ValueError`. -/
def parseInt (s : String) : Except String Int :=
  match s.toList with
  | [] => Except.error ("invalid literal for int() with base 10: " ++ s)
  | '-' :: rest =>
    if rest ≠ [] ∧ rest.all Char.isDigit then Except.ok (-(natFromDigits rest))
    else Except.error ("invalid literal for int() with base 10: " ++ s)
  | cs =>
    if cs.all Char.isDigit then Except.ok (natFromDigits cs)
    else Except.error ("invalid literal for int() with base 10: " ++ s)

/-! ## Calendar service layer (`calendar_service.py`)

The Google Calendar backend is an external collaborator (spec section 6);
it is modelled as a deterministic event source (`listEvents`) for queries
and as an explicit event store (`Backend`) for creation. -/

/-- The mutable state a `CalendarService` instance carries
(`__init__`): the calendar identifier. -/
structure CalendarServiceState where
  calendar_id : String
deriving DecidableEq, Repr

/-- The slot dictionary built at lines 75-79:
`start_time`/`end_time` via `strftime("%H:%M")` and the ISO start. -/
structure SlotOut where
  start_time : String
  end_time : String
  dt : String
deriving DecidableEq, Repr

/-- `CalendarService.get_available_slots` (lines 32-87).  `listEvents`
models the backend query `events().list` keyed by calendar id and date,
returning busy intervals in minutes.  A date that fails `strptime` raises,
is caught by the `except` branch, and yields `[]`.  The method never
assigns to `self`, so the service state is returned unchanged. -/
def get_available_slots (svc : CalendarServiceState)
    (listEvents : String → String → List Interval)
    (date : String) (duration_minutes : Int) :
    CalendarServiceState × List SlotOut :=
  (svc,
    match parseDate date with
    | none => []
    | some _ =>
        (available_intervals 540 1020 duration_minutes
            (listEvents svc.calendar_id date)).map
          (fun s =>
            { start_time := fmtHM s.start
              end_time := fmtHM s.endT
              dt := date ++ "T" ++ fmtHM s.start ++ ":00" }))

/-- The body the source sends to `events().insert` (lines 95-106):
start and end as instants on the integer-minute time axis. -/
structure EventBody where
  summary : String
  description : String
  startM : Int
  endM : Int
deriving DecidableEq, Repr

/-- Model of the external calendar backend store (spec section 6):
the events it holds, plus whether the next insert fails and with what
message (network, permission or quota failure). -/
structure Backend where
  events : List EventBody
  failNext : Option String
deriving DecidableEq, Repr

/-- Backend `events().insert(...).execute()`: on success the event is
appended and an identifier is assigned; on failure an exception carrying
the cause is raised (modelled as `Except.error`). -/
def Backend.insertEvent (b : Backend) (e : EventBody) :
    Backend × Except String String :=
  match b.failNext with
  | some msg => (b, Except.error msg)
  | none =>
      ({ b with events := b.events ++ [e] },
       Except.ok ("evt" ++ toString b.events.length))

/-- The dictionary `CalendarService.create_event` returns: `success` plus
`event_id`/`event_link` on the success path and a `message` either way. -/
structure CreateResult where
  success : Bool
  event_id : String
  event_link : String
  message : String
deriving DecidableEq, Repr

/-- `CalendarService.create_event` (lines 89-125).  The start instant is
taken as minutes (the caller passes `datetime.isoformat()` output, which
`fromisoformat` re-parses without failure).  Note the source performs no
validation of the interval and no conflict check: it builds the body and
calls insert directly; the `except` branch converts a backend failure into
a `success=False` dictionary. -/
def create_event (b : Backend) (title : String) (start_minutes : Int)
    (duration_minutes : Int) (description : String) :
    Backend × CreateResult :=
  let endM := start_minutes + duration_minutes
  let event : EventBody :=
    { summary := title, description := description
      startM := start_minutes, endM := endM }
  match b.insertEvent event with
  | (b2, Except.ok id) =>
      (b2, { success := true, event_id := id, event_link := ""
             message := "Event \x27" ++ title ++ "\x27 created successfully" })
  | (b2, Except.error e) =>
      (b2, { success := false, event_id := "", event_link := ""
             message := "Failed to create event: " ++ e })

/-- A raw event as returned by the backend list call in
`CalendarService.get_events` (lines 127-157): optional summary and
description, and the start string. -/
structure RawEvent where
  summary : Option String
  startStr : String
  description : Option String
deriving DecidableEq, Repr

/-- The dictionary built per event by `CalendarService.get_events`. -/
structure EventOut where
  title : String
  start_time : String
  description : String
deriving DecidableEq, Repr

/-- `CalendarService.get_events` (lines 127-157): parse the date (a
failure raises, is caught, and yields `[]`), list the day, and format
each event with the `'No Title'` and `''` defaults. -/
def get_events (svc : CalendarServiceState)
    (listRaw : String → String → List RawEvent) (date : String) :
    CalendarServiceState × List EventOut :=
  (svc,
    match parseDate date with
    | none => []
    | some _ =>
        (listRaw svc.calendar_id date).map
          (fun e =>
            { title := e.summary.getD "No Title"
              start_time := e.startStr
              description := e.description.getD "" }))

/-! ## Agent tools (`agent.py`, lines 32-85)

Each tool is a thin text wrapper: its `try`/`except` boundary is modelled
by total functions whose fallible sub-steps return `Option`/`Except` and
whose every branch produces a `String`. -/

/-- `check_availability` (agent.py lines 32-45): fetch the slots for the
date (default duration 60), report none, or list the first 8. -/
def check_availability (svc : CalendarServiceState)
    (listEvents : String → String → List Interval) (date_str : String) :
    String :=
  let slots := (get_available_slots svc listEvents date_str 60).2
  if slots.isEmpty then
    "No available slots found for " ++ date_str ++ ". Please try another date."
  else
    "Available slots for " ++ date_str ++ ":\n" ++
      String.intercalate "\n"
        ((slots.take 8).map (fun s => s.start_time ++ " - " ++ s.end_time))

/-- `book_appointment` (agent.py lines 47-66): parse the combined
date/time (`strptime('%Y-%m-%d %H:%M')`, modelled as the two component
parses), parse the duration, call `create_event`, and convert its result
dictionary to text; any parse exception becomes an
`Error booking appointment:` message. -/
def book_appointment (b : Backend) (title date time : String)
    (duration : String) : Backend × String :=
  match parseDate date, parseTime time with
  | some _, some tm =>
      (match parseInt duration with
       | Except.error e => (b, "Error booking appointment: " ++ e)
       | Except.ok dur =>
           let res := create_event b title (Int.ofNat tm) dur ""
           if res.2.success then
             (res.1, "✅ Appointment \x27" ++ title ++ "\x27 booked successfully for "
                       ++ date ++ " at " ++ time ++ "!")
           else
             (res.1, "❌ Failed to book appointment: " ++ res.2.message))
  | _, _ =>
      (b, "Error booking appointment: " ++
            ("time data \x27" ++ date ++ " " ++ time
              ++ "\x27 does not match format \x27%Y-%m-%d %H:%M\x27"))

/-- `strftime('%Y-%m-%d')` on a date triple. -/
def formatDate : Nat × Nat × Nat → String
  | (y, m, d) => toString y ++ "-" ++ twoDigits m ++ "-" ++ twoDigits d

/-- `get_current_date` (agent.py lines 68-70): format today's date. -/
def get_current_date (today : Nat × Nat × Nat) : String :=
  formatDate today

/-- `get_events_for_date` (agent.py lines 72-85): list the day's events
or report that none exist. -/
def get_events_for_date (svc : CalendarServiceState)
    (listRaw : String → String → List RawEvent) (date : String) : String :=
  let events := (get_events svc listRaw date).2
  if events.isEmpty then
    "No events found for " ++ date
  else
    "Events for " ++ date ++ ":\n" ++
      String.intercalate "\n"
        (events.map (fun e => "- " ++ e.title ++ " at " ++ e.start_time))

/-! ## Helper lemmas -/

theorem slotLoop_eq (current close duration : Int) :
    slotLoop current close duration =
      if current + duration ≤ close then
        { start := current, endT := current + duration } :: slotLoop (current + 30) close duration
      else
        [] := by
  rw [slotLoop]
  split <;> rfl

theorem slotLoop_cons (current close duration : Int) (h : current + duration ≤ close) :
    slotLoop current close duration =
      { start := current, endT := current + duration } :: slotLoop (current + 30) close duration := by
  rw [slotLoop_eq, if_pos h]

theorem slotLoop_nil (current close duration : Int) (h : close < current + duration) :
    slotLoop current close duration = [] := by
  rw [slotLoop_eq, if_neg (by omega)]

theorem slotLoop_mem_bounds (c cl d : Int) :
    ∀ s ∈ slotLoop c cl d, c ≤ s.start ∧ s.endT = s.start + d ∧ s.endT ≤ cl := by
  induction c, cl, d using slotLoop.induct with
  | case1 c cl d h ih =>
      intro s hs
      rw [slotLoop_cons _ _ _ h] at hs
      rcases List.mem_cons.mp hs with rfl | hs
      · exact ⟨le_refl _, rfl, h⟩
      · obtain ⟨h1, h2, h3⟩ := ih s hs
        exact ⟨by omega, h2, h3⟩
  | case2 c cl d h =>
      intro s hs
      rw [slotLoop_nil _ _ _ (by omega)] at hs
      simp at hs

theorem slotLoop_pairwise (c cl d : Int) :
    (slotLoop c cl d).Pairwise (fun a b => a.start < b.start) := by
  induction c, cl, d using slotLoop.induct with
  | case1 c cl d h ih =>
      rw [slotLoop_cons _ _ _ h]
      refine List.pairwise_cons.mpr ⟨?_, ih⟩
      intro s hs
      have hb := (slotLoop_mem_bounds _ _ _ s hs).1
      simp only
      omega
  | case2 c cl d h =>
      rw [slotLoop_nil _ _ _ (by omega)]
      exact List.Pairwise.nil

theorem slotLoop_head (c cl d : Int) (h : c + d ≤ cl) :
    (slotLoop c cl d).head? = some ⟨c, c + d⟩ := by
  rw [slotLoop_cons _ _ _ h]
  rfl

theorem slotLoop_chain_step (c cl d : Int) :
    (slotLoop c cl d).Chain' (fun a b => b.start = a.start + 30) := by
  induction c, cl, d using slotLoop.induct with
  | case1 c cl d h ih =>
      rw [slotLoop_cons _ _ _ h]
      refine List.chain'_cons'.mpr ⟨?_, ih⟩
      intro y hy
      by_cases h2 : c + 30 + d ≤ cl
      · rw [slotLoop_head _ _ _ h2] at hy
        simp only [Option.mem_def, Option.some.injEq] at hy
        subst hy
        rfl
      · rw [slotLoop_nil _ _ _ (by omega)] at hy
        simp at hy
  | case2 c cl d h =>
      rw [slotLoop_nil _ _ _ (by omega)]
      exact List.chain'_nil

theorem isFree_iff (events : List Interval) (s : Interval) :
    isFree events s = true ↔ ∀ b ∈ events, overlaps s b = false := by
  simp [isFree, List.all_eq_true]

/-- The full default-day candidate list: window 09:00-17:00 (540-1020),
duration 60, step 30. -/
theorem slotLoop_day : slotLoop 540 1020 60 =
    [⟨540, 600⟩, ⟨570, 630⟩, ⟨600, 660⟩, ⟨630, 690⟩, ⟨660, 720⟩,
     ⟨690, 750⟩, ⟨720, 780⟩, ⟨750, 810⟩, ⟨780, 840⟩, ⟨810, 870⟩,
     ⟨840, 900⟩, ⟨870, 930⟩, ⟨900, 960⟩, ⟨930, 990⟩, ⟨960, 1020⟩] := by
  simp only [slotLoop_cons, slotLoop_nil, Int.reduceAdd, Int.reduceLE, Int.reduceLT]

/-! ## Claim theorems -/

/-- C4: the overlap test returns true iff `a.start < b.end` and
`b.start < a.end` (half-open semantics); consequently it is symmetric, and
adjacent intervals with `a.end == b.start` never overlap. -/
theorem overlaps_halfopen_symm_adjacent :
    (∀ a b : Interval, overlaps a b = true ↔ (a.start < b.endT ∧ b.start < a.endT)) ∧
    (∀ a b : Interval, overlaps a b = overlaps b a) ∧
    (∀ a b : Interval, a.endT = b.start → overlaps a b = false) := by
  refine ⟨?_, ?_, ?_⟩
  · intro a b
    simp [overlaps]
  · intro a b
    simp only [overlaps]
    exact Bool.and_comm _ _
  · intro a b h
    simp [overlaps, ← h]

/-- Witness for C4: the adjacent pair 09:00-10:00 / 10:00-11:00 does not
overlap, and a concrete symmetric pair. -/
theorem overlaps_halfopen_symm_adjacent_witness :
    overlaps ⟨540, 600⟩ ⟨600, 660⟩ = false ∧
    overlaps ⟨540, 600⟩ ⟨570, 630⟩ = overlaps ⟨570, 630⟩ ⟨540, 600⟩ :=
  ⟨overlaps_halfopen_symm_adjacent.2.2 ⟨540, 600⟩ ⟨600, 660⟩ rfl,
   overlaps_halfopen_symm_adjacent.2.1 ⟨540, 600⟩ ⟨570, 630⟩⟩

/-- C5: the candidate sequence starts at the window opening, steps by 30
minutes, stops once `current + duration > close` (every produced interval
ends at or before closing and has length exactly `duration`), and is empty
(a normally returned list, not an error) when the duration exceeds the
window length. -/
theorem slot_generator_spec :
    (∀ c cl d : Int, ∀ s ∈ slotLoop c cl d, s.endT ≤ cl ∧ s.endT = s.start + d) ∧
    (∀ c cl d : Int, c + d ≤ cl → (slotLoop c cl d).head? = some ⟨c, c + d⟩) ∧
    (∀ c cl d : Int, (slotLoop c cl d).Chain' (fun a b => b.start = a.start + 30)) ∧
    (∀ c cl d : Int, cl < c + d → slotLoop c cl d = []) := by
  refine ⟨?_, slotLoop_head, slotLoop_chain_step, slotLoop_nil⟩
  intro c cl d s hs
  obtain ⟨h1, h2, h3⟩ := slotLoop_mem_bounds c cl d s hs
  exact ⟨h3, h2⟩

/-- Witness for C5: the default window 09:00-17:00 with duration 60 opens
with the slot 09:00-10:00, and a 60-minute duration in a 09:00-09:30
window produces the empty list. -/
theorem slot_generator_spec_witness :
    ((540 : Int) + 60 ≤ 1020 ∧ (slotLoop 540 1020 60).head? = some ⟨540, 600⟩) ∧
    ((570 : Int) < 540 + 60 ∧ slotLoop 540 570 60 = []) :=
  ⟨⟨by norm_num, slot_generator_spec.2.1 540 1020 60 (by norm_num)⟩,
   ⟨by norm_num, slot_generator_spec.2.2.2 540 570 60 (by norm_num)⟩⟩

/-- C6: enlarging the busy set can never increase the number of returned
slots: if every busy interval of `B` is also in `B2`, the availability
result for `B2` is at most as long as the one for `B`. -/
theorem available_slots_antitone (openM closeM d : Int) (B B2 : List Interval)
    (h : ∀ x ∈ B, x ∈ B2) :
    (available_intervals openM closeM d B2).length ≤
      (available_intervals openM closeM d B).length := by
  unfold available_intervals
  apply List.Sublist.length_le
  apply List.monotone_filter_right
  intro s hs
  rw [isFree_iff] at hs ⊢
  intro b hb
  exact hs b (h b hb)

/-- Witness for C6: adding the busy interval 10:00-11:00 to an empty busy
set does not increase the slot count. -/
theorem available_slots_antitone_witness :
    (available_intervals 540 1020 60 [⟨600, 660⟩]).length ≤
      (available_intervals 540 1020 60 []).length :=
  available_slots_antitone 540 1020 60 [] [⟨600, 660⟩] (by simp)

/-- C7: `get_available_slots` is deterministic and stateless: it leaves
the service state unchanged, and a second call with identical inputs
(including an identical backend response) yields the identical output. -/
theorem available_slots_stateless :
    ∀ (svc : CalendarServiceState) (le : String → String → List Interval)
      (date : String) (dur : Int),
      (get_available_slots svc le date dur).1 = svc ∧
      (get_available_slots (get_available_slots svc le date dur).1 le date dur).2 =
        (get_available_slots svc le date dur).2 :=
  fun _ _ _ _ => ⟨rfl, rfl⟩

/-- C8: on backend success `create_event` returns the created event's
backend-assigned identifier and exactly one event is appended to the
backend; on backend failure it returns a failure result carrying the
cause and the backend is unchanged (the single insert call is the sole
mutating step, and it is not retried). -/
theorem create_event_result_spec :
    ∀ (b : Backend) (title : String) (start dur : Int) (desc : String),
      (b.failNext = none →
        ((create_event b title start dur desc).2.success = true ∧
         (create_event b title start dur desc).2.event_id =
           "evt" ++ toString b.events.length ∧
         (create_event b title start dur desc).1.events =
           b.events ++
             [{ summary := title, description := desc, startM := start, endM := start + dur }] ∧
         (create_event b title start dur desc).1.events.length = b.events.length + 1)) ∧
      (∀ msg, b.failNext = some msg →
        ((create_event b title start dur desc).2.success = false ∧
         (create_event b title start dur desc).2.message =
           "Failed to create event: " ++ msg ∧
         (create_event b title start dur desc).1.events = b.events)) := by
  intro b title start dur desc
  constructor
  · intro h
    simp [create_event, Backend.insertEvent, h]
  · intro msg h
    simp [create_event, Backend.insertEvent, h]

/-- Witness for C8: both branches at concrete backends — an empty healthy
backend accepts the event and assigns an identifier; a failing backend
leaves the store unchanged and reports the cause. -/
theorem create_event_result_spec_witness :
    ((create_event ⟨[], none⟩ "Standup" 600 30 "").2.success = true ∧
     (create_event ⟨[], none⟩ "Standup" 600 30 "").2.event_id =
       "evt" ++ toString (List.length ([] : List EventBody)) ∧
     (create_event ⟨[], none⟩ "Standup" 600 30 "").1.events =
       [] ++ [{ summary := "Standup", description := "", startM := 600, endM := 600 + 30 }] ∧
     (create_event ⟨[], none⟩ "Standup" 600 30 "").1.events.length =
       List.length ([] : List EventBody) + 1) ∧
    ((create_event ⟨[], some "network unreachable"⟩ "Standup" 600 30 "").2.success = false ∧
     (create_event ⟨[], some "network unreachable"⟩ "Standup" 600 30 "").2.message =
       "Failed to create event: " ++ "network unreachable" ∧
     (create_event ⟨[], some "network unreachable"⟩ "Standup" 600 30 "").1.events =
       ([] : List EventBody)) :=
  ⟨(create_event_result_spec ⟨[], none⟩ "Standup" 600 30 "").1 rfl,
   (create_event_result_spec ⟨[], some "network unreachable"⟩ "Standup" 600 30 "").2
     "network unreachable" rfl⟩

/-- C2 counterexample: a booking whose interval falls inside an
already-busy interval is NOT rejected — at a backend already holding the
busy event 10:00-11:00, creating a fully contained 10:00-11:00 event
reports success and a second event exists afterwards, contradicting the
claimed ConflictError-style failure with zero events created. -/
theorem booking_conflict_not_rejected_cex :
    overlaps ⟨600, 660⟩ ⟨600, 660⟩ = true ∧
    (create_event
        ⟨[{ summary := "Busy", description := "", startM := 600, endM := 660 }], none⟩
        "Clash" 600 60 "").2.success = true ∧
    (create_event
        ⟨[{ summary := "Busy", description := "", startM := 600, endM := 660 }], none⟩
        "Clash" 600 60 "").1.events.length = 2 := by
  decide

/-- C2 amended: the booking operation performs no conflict check — when
the backend accepts the insert, a booking whose interval overlaps an
existing busy event still succeeds and the event is created; a busy slot
surfaces only as its absence from the availability result, never as a
booking-time rejection. -/
theorem booking_conflict_succeeds :
    ∀ (b : Backend) (title : String) (start dur : Int) (desc : String),
      b.failNext = none →
      (∃ e ∈ b.events, overlaps ⟨start, start + dur⟩ ⟨e.startM, e.endM⟩ = true) →
      ((create_event b title start dur desc).2.success = true ∧
       (create_event b title start dur desc).1.events =
         b.events ++
           [{ summary := title, description := desc, startM := start, endM := start + dur }]) := by
  intro b title start dur desc h _hconf
  simp [create_event, Backend.insertEvent, h]

/-- Witness for C2 amended: the conflicting 10:00-11:00 booking at a
backend already holding a 10:00-11:00 busy event succeeds and appends
the event. -/
theorem booking_conflict_succeeds_witness :
    (create_event
        ⟨[{ summary := "Busy", description := "", startM := 600, endM := 660 }], none⟩
        "Sync" 600 60 "").2.success = true ∧
    (create_event
        ⟨[{ summary := "Busy", description := "", startM := 600, endM := 660 }], none⟩
        "Sync" 600 60 "").1.events =
      [{ summary := "Busy", description := "", startM := 600, endM := 660 }] ++
        [{ summary := "Sync", description := "", startM := 600, endM := 600 + 60 }] :=
  booking_conflict_succeeds
    ⟨[{ summary := "Busy", description := "", startM := 600, endM := 660 }], none⟩
    "Sync" 600 60 "" rfl
    ⟨{ summary := "Busy", description := "", startM := 600, endM := 660 }, by decide, by decide⟩

/-- C3 counterexample: the booking operation validates nothing — a request
whose start (minute 500) lies in the past relative to current time 1000
is still sent to the backend and succeeds, and so is a request with
`start = end` (duration 0), contradicting the claimed validation
failures. -/
theorem booking_no_validation_cex :
    ((500 : Int) < 1000 ∧
     (create_event ⟨[], none⟩ "Retro" 500 60 "").2.success = true ∧
     (create_event ⟨[], none⟩ "Retro" 500 60 "").1.events.length = 1) ∧
    (¬ ((500 : Int) < 500 + 0) ∧
     (create_event ⟨[], none⟩ "Planning" 500 0 "").2.success = true ∧
     (create_event ⟨[], none⟩ "Planning" 500 0 "").1.events.length = 1) := by
  decide

/-- C3 amended: the booking operation performs neither the
`start < end` check nor the not-in-the-past check — every request that
parses is constructed and sent to the backend unconditionally, and
succeeds whenever the backend accepts, even when the interval is empty or
reversed (`start + dur ≤ start`) or the start lies before the current
time. -/
theorem booking_skips_validation :
    ∀ (b : Backend) (title : String) (start dur : Int) (desc : String) (current : Int),
      b.failNext = none →
      (start + dur ≤ start ∨ start < current) →
      ((create_event b title start dur desc).2.success = true ∧
       (create_event b title start dur desc).1.events =
         b.events ++
           [{ summary := title, description := desc, startM := start, endM := start + dur }]) := by
  intro b title start dur desc current h _hviol
  simp [create_event, Backend.insertEvent, h]

/-- Witness for C3 amended: a past-start request (start 500 before
current time 1000) is sent and succeeds. -/
theorem booking_skips_validation_witness :
    (create_event ⟨[], none⟩ "Retro" 500 60 "").2.success = true ∧
    (create_event ⟨[], none⟩ "Retro" 500 60 "").1.events =
      [] ++ [{ summary := "Retro", description := "", startM := 500, endM := 500 + 60 }] :=
  booking_skips_validation ⟨[], none⟩ "Retro" 500 60 "" 1000 rfl (Or.inr (by norm_num))

/-- The availability result for the scenario of C1: default window,
duration 60, busy 10:00-11:00. -/
theorem avail_scenario_eval :
    available_intervals 540 1020 60 [⟨600, 660⟩] =
      [⟨540, 600⟩, ⟨660, 720⟩, ⟨690, 750⟩, ⟨720, 780⟩, ⟨750, 810⟩,
       ⟨780, 840⟩, ⟨810, 870⟩, ⟨840, 900⟩, ⟨870, 930⟩, ⟨900, 960⟩,
       ⟨930, 990⟩, ⟨960, 1020⟩] := by
  unfold available_intervals
  rw [slotLoop_day]
  decide

/-- C1: `available_intervals` returns exactly the generated candidates
that overlap no busy interval, in ascending start order; in the scenario
window 09:00-17:00, duration 60, busy 10:00-11:00 it includes 09:00-10:00
and 11:00-12:00 and excludes 09:30-10:30, 10:00-11:00 and 10:30-11:30. -/
theorem available_slots_spec :
    (∀ (openM closeM d : Int) (busy : List Interval) (s : Interval),
        s ∈ available_intervals openM closeM d busy ↔
          (s ∈ slotLoop openM closeM d ∧ ∀ b ∈ busy, overlaps s b = false)) ∧
    (∀ (openM closeM d : Int) (busy : List Interval),
        (available_intervals openM closeM d busy).Pairwise
          (fun a b => a.start < b.start)) ∧
    (⟨540, 600⟩ ∈ available_intervals 540 1020 60 [⟨600, 660⟩] ∧
     ⟨660, 720⟩ ∈ available_intervals 540 1020 60 [⟨600, 660⟩] ∧
     ⟨570, 630⟩ ∉ available_intervals 540 1020 60 [⟨600, 660⟩] ∧
     ⟨600, 660⟩ ∉ available_intervals 540 1020 60 [⟨600, 660⟩] ∧
     ⟨630, 690⟩ ∉ available_intervals 540 1020 60 [⟨600, 660⟩]) := by
  refine ⟨?_, ?_, ?_⟩
  · intro openM closeM d busy s
    unfold available_intervals
    rw [List.mem_filter, isFree_iff]
  · intro openM closeM d busy
    unfold available_intervals
    exact List.Pairwise.sublist (List.filter_sublist _) (slotLoop_pairwise openM closeM d)
  · rw [avail_scenario_eval]
    decide

/-- Witness for C1: the 11:00-12:00 slot belongs to the scenario result
because it is a generated candidate overlapping no busy interval. -/
theorem available_slots_spec_witness :
    ⟨660, 720⟩ ∈ available_intervals 540 1020 60 [⟨600, 660⟩] :=
  (available_slots_spec.1 540 1020 60 [⟨600, 660⟩] ⟨660, 720⟩).mpr
    ⟨by rw [slotLoop_day]; decide, by decide⟩

/-- C9: every agent tool returns, for every input (malformed ones
included), a plain string describing success or failure — each possible
outcome is one of the enumerated message forms, so no exception ever
reaches the caller. -/
theorem tools_return_strings :
    (∀ (svc : CalendarServiceState) (le : String → String → List Interval) (d : String),
        check_availability svc le d =
            "No available slots found for " ++ d ++ ". Please try another date." ∨
          ∃ body, check_availability svc le d =
            "Available slots for " ++ d ++ ":\n" ++ body) ∧
    (∀ (b : Backend) (title date time dur : String),
        (∃ e, (book_appointment b title date time dur).2 =
            "Error booking appointment: " ++ e) ∨
        (book_appointment b title date time dur).2 =
          "✅ Appointment \x27" ++ title ++ "\x27 booked successfully for "
            ++ date ++ " at " ++ time ++ "!" ∨
        ∃ m, (book_appointment b title date time dur).2 =
          "❌ Failed to book appointment: " ++ m) ∧
    (∀ today : Nat × Nat × Nat, get_current_date today = formatDate today) ∧
    (∀ (svc : CalendarServiceState) (lr : String → String → List RawEvent) (d : String),
        get_events_for_date svc lr d = "No events found for " ++ d ∨
          ∃ body, get_events_for_date svc lr d =
            "Events for " ++ d ++ ":\n" ++ body) := by
  refine ⟨?_, ?_, fun _ => rfl, ?_⟩
  · intro svc le d
    by_cases h : ((get_available_slots svc le d 60).2).isEmpty
    · left
      simp [check_availability, h]
    · right
      refine ⟨String.intercalate "\n"
        (((get_available_slots svc le d 60).2.take 8).map
          (fun s => s.start_time ++ " - " ++ s.end_time)), ?_⟩
      simp [check_availability, h]
  · intro b title date time dur
    rcases hd : parseDate date with _ | pd <;> rcases ht : parseTime time with _ | tm
    · exact Or.inl ⟨"time data \x27" ++ date ++ " " ++ time
          ++ "\x27 does not match format \x27%Y-%m-%d %H:%M\x27",
        by simp [book_appointment, hd, ht]⟩
    · exact Or.inl ⟨"time data \x27" ++ date ++ " " ++ time
          ++ "\x27 does not match format \x27%Y-%m-%d %H:%M\x27",
        by simp [book_appointment, hd, ht]⟩
    · exact Or.inl ⟨"time data \x27" ++ date ++ " " ++ time
          ++ "\x27 does not match format \x27%Y-%m-%d %H:%M\x27",
        by simp [book_appointment, hd, ht]⟩
    · rcases hi : parseInt dur with e | dv
      · exact Or.inl ⟨e, by simp [book_appointment, hd, ht, hi]⟩
      · by_cases hs : (create_event b title (Int.ofNat tm) dv "").2.success = true
        · refine Or.inr (Or.inl ?_)
          simp only [book_appointment, hd, ht, hi]
          rw [if_pos hs]
        · refine Or.inr (Or.inr
            ⟨(create_event b title (Int.ofNat tm) dv "").2.message, ?_⟩)
          simp only [book_appointment, hd, ht, hi]
          rw [if_neg hs]
  · intro svc lr d
    by_cases h : ((get_events svc lr d).2).isEmpty
    · left
      simp [get_events_for_date, h]
    · right
      refine ⟨String.intercalate "\n"
        ((get_events svc lr d).2.map
          (fun e => "- " ++ e.title ++ " at " ++ e.start_time)), ?_⟩
      simp [get_events_for_date, h]

/-- C10: whenever the availability computation yields more than 8 slots,
`check_availability` lists exactly the first 8 of them, in order, and
silently omits the rest. -/
theorem check_availability_first8 :
    ∀ (svc : CalendarServiceState) (le : String → String → List Interval) (d : String),
      8 < (get_available_slots svc le d 60).2.length →
      (check_availability svc le d =
          "Available slots for " ++ d ++ ":\n" ++
            String.intercalate "\n"
              (((get_available_slots svc le d 60).2.take 8).map
                (fun s => s.start_time ++ " - " ++ s.end_time)) ∧
       ((get_available_slots svc le d 60).2.take 8).length = 8) := by
  intro svc le d h
  have hne : ¬ ((get_available_slots svc le d 60).2).isEmpty := by
    rcases hsl : (get_available_slots svc le d 60).2 with _ | ⟨x, xs⟩
    · rw [hsl] at h
      simp at h
    · simp
  constructor
  · simp [check_availability, hne]
  · rw [List.length_take]
    omega

/-- The free day 2024-01-10 yields 15 slots. -/
theorem get_available_slots_free_day :
    (get_available_slots ⟨"primary"⟩ (fun _ _ => []) "2024-01-10" 60).2.length = 15 := by
  have hp : parseDate "2024-01-10" = some (2024, 1, 10) := by decide
  simp only [get_available_slots, hp]
  unfold available_intervals
  rw [slotLoop_day]
  decide

/-- Witness for C10: on the free day 2024-01-10 there are 15 > 8 slots
and the tool output lists exactly the first 8. -/
theorem check_availability_first8_witness :
    8 < (get_available_slots ⟨"primary"⟩ (fun _ _ => []) "2024-01-10" 60).2.length ∧
    (check_availability ⟨"primary"⟩ (fun _ _ => []) "2024-01-10" =
        "Available slots for " ++ "2024-01-10" ++ ":\n" ++
          String.intercalate "\n"
            (((get_available_slots ⟨"primary"⟩ (fun _ _ => []) "2024-01-10" 60).2.take 8).map
              (fun s => s.start_time ++ " - " ++ s.end_time)) ∧
     ((get_available_slots ⟨"primary"⟩ (fun _ _ => []) "2024-01-10" 60).2.take 8).length = 8) := by
  have h : 8 < (get_available_slots ⟨"primary"⟩ (fun _ _ => []) "2024-01-10" 60).2.length := by
    rw [get_available_slots_free_day]
    norm_num
  exact ⟨h, check_availability_first8 ⟨"primary"⟩ (fun _ _ => []) "2024-01-10" h⟩

end CalendarAgent
